import Mathlib

/-!
Verification of the caching proxy in `src/index.js`.

The embedding models the request-handling pipeline: cache-key derivation
(`generateCacheKey`, lines 12-20), the origin fetch with redirect handling
(`fetchFromOrigin`, lines 23-90) and the dispatcher (`handleRequest`,
lines 93-107).  The process-wide `cache` Map (line 9) is passed explicitly
as a value and the updated value is returned; the HTTP response object
`res` is modelled by returning the written response.  Node buffers are
modelled as the strings of bytes they hold; incoming response header names
are modelled already lowercased, as Node presents them in
`proxyRes.headers`.  The network is an oracle mapping the outbound request
to the origin's behaviour, and the unbounded callback recursion of
`fetchFromOrigin` is modelled with a fuel parameter: `none` means the
recursion did not complete within the given fuel, so a result holding for
every fuel characterises the untruncated behaviour.
-/

namespace Proxy

/-- An incoming client request: method, url (path plus query, as in
`req.url`), the body as the list of `data` chunks the stream delivers, and
the client's request headers. -/
structure ClientRequest where
  method : String
  url : String
  bodyChunks : List String
  headers : List (String × String)
deriving DecidableEq

/-- A response received from the origin: status code, (lowercased) headers
and the fully buffered body (`Buffer.concat(data)`, line 37). -/
structure OriginResponse where
  statusCode : Nat
  headers : List (String × String)
  body : String
deriving DecidableEq

/-- What talking to the origin yields for one outbound request: either a
response, or a transport error carrying `err.message` (line 83). -/
inductive OriginResult where
  | response : OriginResponse → OriginResult
  | error : String → OriginResult
deriving DecidableEq

/-- A cached response: the pair `{ headers, body }` stored at line 66. -/
structure CacheEntry where
  headers : List (String × String)
  body : String
deriving DecidableEq

/-- The process-wide `cache` Map (line 9), modelled as an association
list; the most recently written binding for a key shadows older ones. -/
abbrev Cache := List (String × CacheEntry)

/-- `cache.get(key)` / `cache.has(key)`. -/
def cacheGet (c : Cache) (k : String) : Option CacheEntry :=
  List.lookup k c

/-- `cache.set(key, entry)`: insert or silently replace. -/
def cacheSet (c : Cache) (k : String) (e : CacheEntry) : Cache :=
  (k, e) :: c

/-- Lookup of a (lowercased) header name in a header list, modelling
`proxyRes.headers.location` etc. -/
def getHeader (hs : List (String × String)) (name : String) : Option String :=
  List.lookup name hs

/-- Embedding of `generateCacheKey` (lines 12-20): the value the function
returns.  The `data` listener registered at lines 15-17 only runs after the
current synchronous execution finishes — Node's event loop delivers stream
events asynchronously — so at `return key` (line 19) the local `key` still
holds the value assigned at line 13, and the listener's later writes to the
captured local are never observed by any caller.  Hence the returned (and
used) key is always `METHOD|URL`, for POST requests as well. -/
def generateCacheKey (req : ClientRequest) : String :=
  req.method ++ "|" ++ req.url

/-- Embedding of the eventual value of the closure variable `key` of
`generateCacheKey` after all `data` events have fired (lines 15-17): for a
POST request each chunk is digested separately and appended.  This value is
computed but never read by the program; it is included to cover lines 15-17
of the source.  `hsh` stands for `hex(sha256(·))` from the `crypto`
library, which is outside the repository. -/
def generateCacheKeyEventual (hsh : String → String) (req : ClientRequest) : String :=
  if req.method = "POST" then
    req.bodyChunks.foldl (fun k c => k ++ "|" ++ hsh c) (req.method ++ "|" ++ req.url)
  else
    req.method ++ "|" ++ req.url

/-- Modelled from the spec: `deriveKey(method, path, bodyBytesOrNone)`
(§4.1) — `METHOD|PATH` without a body and `METHOD|PATH|hex(sha256(body))`
when a body is present, the digest taken over the complete body.  `hsh`
stands for `hex(sha256(·))`. -/
def deriveKey (hsh : String → String) (method path : String) (body : Option String) : String :=
  match body with
  | none => method ++ "|" ++ path
  | some b => method ++ "|" ++ path ++ "|" ++ hsh b

/-- `new URL(ref, base).href` (lines 24 and 58-61), modelled for the
references the proxy exercises: a path-absolute reference resolves to
`base ++ ref` (for a base that is a pure origin such as `http://o`), and an
absolute URL stands alone. -/
def resolveUrl (base ref : String) : String :=
  if ref.data.head? = some '/' then base ++ ref else ref

/-- Removal of the first occurrence of `pat` from a character list,
modelling JavaScript `String.prototype.replace(pat, "")` with a string
pattern (which replaces only the first occurrence). -/
def dropFirstOccur (s pat : List Char) : List Char :=
  match s with
  | [] => []
  | c :: cs =>
    if pat.isPrefixOf (c :: cs) then (c :: cs).drop pat.length
    else c :: dropFirstOccur cs pat

/-- `redirectUrl.replace(origin, "")` (line 50). -/
def stripOrigin (origin url : String) : String :=
  String.mk (dropFirstOccur url.data origin.data)

/-- The outbound request issued to the origin: built at lines 28-30 from
the target URL and `{ method: req.method }` only, with the client body
stream piped into it at line 89.  No client header is copied. -/
structure OutboundRequest where
  url : String
  method : String
  bodyChunks : List String
deriving DecidableEq

/-- Construction of the outbound request of `fetchFromOrigin`
(lines 28-30 and 89). -/
def buildProxyRequest (origin path : String) (req : ClientRequest) : OutboundRequest :=
  ⟨resolveUrl origin path, req.method, req.bodyChunks⟩

/-- Which of the code's response-writing branches produced the response:
cache hit (lines 97-102), cache write (lines 65-70 then 76-77),
pass-through (lines 71-77), transport error (lines 83-87), or the
redirect-limit branch (lines 43-48). -/
inductive RequestPath where
  | hit
  | cacheWrite
  | passThrough
  | transportError
  | redirectLimit
deriving DecidableEq

/-- The response written to the client: status and headers passed to
`res.writeHead`, the cache-status signal set via
`res.setHeader("X-Cache", _)` if any, and the body passed to `res.end`. -/
structure ClientResponse where
  status : Nat
  headers : List (String × String)
  xCache : Option String
  body : String
deriving DecidableEq

/-- The observable outcome of processing one client request: the final
state of the `cache` Map, the response written to the client, the number
of requests issued to the origin (`hops`), the number of `cache.set`
invocations (`stores`), and which branch wrote the response. -/
structure Outcome where
  cache : Cache
  response : ClientResponse
  hops : Nat
  stores : Nat
  tag : RequestPath
deriving DecidableEq

/-- Embedding of `fetchFromOrigin` (lines 23-90).  The oracle stands for
the network.  `fuel` bounds the redirect recursion depth of the model:
`none` means the chain of fetches exceeded `fuel` hops without writing any
response.  Note that `redirectCount` is declared at line 41 inside each
response's `end` handler, so every recursive `fetchFromOrigin` call starts
a fresh counter at 0; the embedding reproduces that literally. -/
def fetchFromOrigin (oracle : OutboundRequest → OriginResult) (origin : String) :
    Nat → String → Cache → ClientRequest → Option Outcome
  | 0, _, _, _ => none
  | fuel + 1, path, cache, req =>
    -- `targetUrl` (line 24) is folded into `buildProxyRequest`; for the
    -- path-absolute paths the proxy passes against a pure-origin base,
    -- `targetUrl.origin` (line 60) equals the configured origin string.
    let key := generateCacheKey req
    match oracle (buildProxyRequest origin path req) with
    | OriginResult.error msg =>
      some ⟨cache,
        ⟨500, [("Content-Type", "text/plain")], none, "Error fetching from origin: " ++ msg⟩,
        1, 0, RequestPath.transportError⟩
    | OriginResult.response r =>
      -- lines 53-57: `statusCode >= 300 && statusCode < 400 && proxyRes.headers.location`;
      -- a missing header is `undefined` and an empty one is falsy, so the
      -- truthiness test is `getD "" ≠ ""`.
      if 300 ≤ r.statusCode ∧ r.statusCode < 400 ∧
          (getHeader r.headers "location").getD "" ≠ "" then
        -- lines 58-61: `new URL(location, targetUrl.origin).href`
        let redirectUrl := resolveUrl origin ((getHeader r.headers "location").getD "")
        -- lines 41-51: the counter is local to this hop, so the guard
        -- compares the constant 0 against 5.
        let redirectCount := 0
        if 5 < redirectCount then
          some ⟨cache,
            ⟨500, [("Content-Type", "text/plain")], none, "Too many redirects"⟩,
            1, 0, RequestPath.redirectLimit⟩
        else
          match fetchFromOrigin oracle origin fuel (stripOrigin origin redirectUrl) cache req with
          | none => none
          | some o => some ⟨o.cache, o.response, o.hops + 1, o.stores, o.tag⟩
      else
        if 200 ≤ r.statusCode ∧ r.statusCode < 300 then
          some ⟨cacheSet cache key ⟨r.headers, r.body⟩,
            ⟨r.statusCode, r.headers, some "MISS", r.body⟩,
            1, 1, RequestPath.cacheWrite⟩
        else
          some ⟨cache, ⟨r.statusCode, r.headers, none, r.body⟩,
            1, 0, RequestPath.passThrough⟩

/-- Embedding of `handleRequest` (lines 93-107): derive the key, serve
from the cache on a hit, otherwise fetch from the origin. -/
def handleRequest (oracle : OutboundRequest → OriginResult) (origin : String)
    (req : ClientRequest) (cache : Cache) (fuel : Nat) : Option Outcome :=
  let key := generateCacheKey req
  match cacheGet cache key with
  | some entry =>
    some ⟨cache, ⟨200, entry.headers, some "HIT", entry.body⟩, 0, 0, RequestPath.hit⟩
  | none => fetchFromOrigin oracle origin fuel req.url cache req

/-- Modelled from the spec: the OriginFetcher redirect policy of §4.3 with
the redirect counter threaded through the recursion, calibrated by §8's
redirect-limit property — the chase performs the initial request plus at
most 5 redirects, and a sixth pending redirect aborts with 500
"Too many redirects". -/
def fetchFromOriginSpec (oracle : OutboundRequest → OriginResult) (origin : String) :
    Nat → String → Cache → ClientRequest → Nat → Option Outcome
  | 0, _, _, _, _ => none
  | fuel + 1, path, cache, req, redirectCount =>
    let key := generateCacheKey req
    match oracle (buildProxyRequest origin path req) with
    | OriginResult.error msg =>
      some ⟨cache,
        ⟨500, [("Content-Type", "text/plain")], none, "Error fetching from origin: " ++ msg⟩,
        1, 0, RequestPath.transportError⟩
    | OriginResult.response r =>
      if 300 ≤ r.statusCode ∧ r.statusCode < 400 ∧
          (getHeader r.headers "location").getD "" ≠ "" then
        if 5 ≤ redirectCount then
          some ⟨cache,
            ⟨500, [("Content-Type", "text/plain")], none, "Too many redirects"⟩,
            1, 0, RequestPath.redirectLimit⟩
        else
          let redirectUrl := resolveUrl origin ((getHeader r.headers "location").getD "")
          match fetchFromOriginSpec oracle origin fuel (stripOrigin origin redirectUrl) cache req
              (redirectCount + 1) with
          | none => none
          | some o => some ⟨o.cache, o.response, o.hops + 1, o.stores, o.tag⟩
      else
        if 200 ≤ r.statusCode ∧ r.statusCode < 300 then
          some ⟨cacheSet cache key ⟨r.headers, r.body⟩,
            ⟨r.statusCode, r.headers, some "MISS", r.body⟩,
            1, 1, RequestPath.cacheWrite⟩
        else
          some ⟨cache, ⟨r.statusCode, r.headers, none, r.body⟩,
            1, 0, RequestPath.passThrough⟩

/-! Concrete requests and origin behaviours used to instantiate the
theorems below. -/

/-- A GET request for `/a`. -/
def reqA : ClientRequest := ⟨"GET", "/a", [], []⟩

/-- A GET request for `/loop`. -/
def reqLoop : ClientRequest := ⟨"GET", "/loop", [], []⟩

/-- A POST request for `/submit` whose body arrives as one chunk. -/
def postHello : ClientRequest := ⟨"POST", "/submit", ["hello"], []⟩

/-- A POST request for `/p` with body `a`. -/
def postA : ClientRequest := ⟨"POST", "/p", ["a"], []⟩

/-- A POST request for `/p` with body `b`, differing from `postA` only in
the body. -/
def postB : ClientRequest := ⟨"POST", "/p", ["b"], []⟩

/-- An origin `http://o` answering `/a` with 200 and body `x`. -/
def okOracle : OutboundRequest → OriginResult := fun o =>
  if o.url = "http://o/a" then
    OriginResult.response ⟨200, [("content-type", "text/plain")], "x"⟩
  else OriginResult.error "no route"

/-- An origin that answers every request with a redirect to `/loop`. -/
def selfRedirectOracle : OutboundRequest → OriginResult := fun _ =>
  OriginResult.response ⟨302, [("location", "/loop")], ""⟩

/-- An origin `http://o` answering `/a` with 302 to `/b`, and `/b` with
200 and body `final`. -/
def redirectOracle : OutboundRequest → OriginResult := fun o =>
  if o.url = "http://o/a" then
    OriginResult.response ⟨302, [("location", "/b")], ""⟩
  else if o.url = "http://o/b" then
    OriginResult.response ⟨200, [("content-type", "text/html")], "final"⟩
  else OriginResult.error "no route"

/-- An origin `http://o` answering `/a` with 404. -/
def notFoundOracle : OutboundRequest → OriginResult := fun o =>
  if o.url = "http://o/a" then
    OriginResult.response ⟨404, [("content-type", "text/plain")], "nope"⟩
  else OriginResult.error "no route"

/-- An origin that is unreachable: every connection attempt fails. -/
def downOracle : OutboundRequest → OriginResult := fun _ =>
  OriginResult.error "connect ECONNREFUSED 127.0.0.1:9999"

/-- An origin `http://o` answering `/a` with a 302 that carries no
Location header. -/
def bareRedirectOracle : OutboundRequest → OriginResult := fun o =>
  if o.url = "http://o/a" then
    OriginResult.response ⟨302, [("content-type", "text/plain")], "moved"⟩
  else OriginResult.error "no route"

/-- Termination of request processing: some fuel suffices for a response
to be written. -/
def chaseTerminates (oracle : OutboundRequest → OriginResult) (origin : String)
    (req : ClientRequest) (cache : Cache) : Prop :=
  ∃ fuel o, handleRequest oracle origin req cache fuel = some o

/-- The outcome of the successful first `GET /a` against `okOracle`,
used by witnesses below. -/
def outA : Outcome :=
  ⟨[("GET|/a", ⟨[("content-type", "text/plain")], "x"⟩)],
    ⟨200, [("content-type", "text/plain")], some "MISS", "x"⟩,
    1, 1, RequestPath.cacheWrite⟩

/-- Against the perpetually redirecting origin, the fetch recursion never
writes a response, whatever the fuel: every hop takes the redirect branch
with a freshly reset `redirectCount`. -/
theorem selfRedirect_fetch_none :
    ∀ fuel path c, fetchFromOrigin selfRedirectOracle "http://o" fuel path c reqLoop = none := by
  intro fuel
  induction fuel with
  | zero => intro path c; rfl
  | succ n ih =>
    intro path c
    simp only [fetchFromOrigin, selfRedirectOracle, getHeader]
    simp [ih]

/-- Against the perpetually redirecting origin, `handleRequest` on an
empty cache never writes a response, whatever the fuel. -/
theorem selfRedirect_handle_none :
    ∀ fuel, handleRequest selfRedirectOracle "http://o" reqLoop [] fuel = none := by
  intro fuel
  simp only [handleRequest, cacheGet, List.lookup]
  exact selfRedirect_fetch_none fuel reqLoop.url []

/-- Any completed fetch performed at most one `cache.set` and was not
produced by the cache-hit branch. -/
theorem fetch_stores_le_one (oracle : OutboundRequest → OriginResult) (origin : String) :
    ∀ fuel path c req o, fetchFromOrigin oracle origin fuel path c req = some o →
      o.stores ≤ 1 ∧ o.tag ≠ RequestPath.hit := by
  intro fuel
  induction fuel with
  | zero => intro path c req o h; simp [fetchFromOrigin] at h
  | succ n ih =>
    intro path c req o h
    simp only [fetchFromOrigin] at h
    split at h
    · cases h; exact ⟨by simp, by simp⟩
    · split at h
      · split at h
        · cases h; exact ⟨by simp, by simp⟩
        · split at h
          · simp at h
          · rename_i o' heq
            cases h
            exact ⟨(ih _ _ _ _ heq).1, (ih _ _ _ _ heq).2⟩
      · split at h
        · cases h; exact ⟨by simp, by simp⟩
        · cases h; exact ⟨by simp, by simp⟩

/-- The fetch recursion never reads the client request's headers: the
outbound request and every observable of the fetch are the same for two
client requests differing only in their headers. -/
theorem fetch_ignores_client_headers (oracle : OutboundRequest → OriginResult) (origin : String) :
    ∀ fuel path c m u b hs1 hs2,
      fetchFromOrigin oracle origin fuel path c ⟨m, u, b, hs1⟩ =
      fetchFromOrigin oracle origin fuel path c ⟨m, u, b, hs2⟩ := by
  intro fuel
  induction fuel with
  | zero => intros; rfl
  | succ n ih =>
    intro path c m u b hs1 hs2
    simp only [fetchFromOrigin, buildProxyRequest, generateCacheKey]
    cases oracle ⟨resolveUrl origin path, m, b⟩ with
    | error msg => rfl
    | response r =>
      simp only []
      split
      · split
        · rfl
        · rw [ih]
      · rfl

/-- C1: the key actually returned by `generateCacheKey` — and hence the
value used for cache lookup and store — is always `METHOD|PATH`, even for
a POST request carrying a body: for the concrete request `POST /submit`
with body `hello` the key is `POST|/submit`, and for every digest function
the spec's `deriveKey`, which appends `|hex(sha256(body))`, yields a
strictly longer (hence different) string.  The body digest therefore never
reaches the used key. -/
theorem generateCacheKey_omits_body_digest :
    generateCacheKey postHello = "POST|/submit" ∧
    (∀ hsh : String → String,
      (generateCacheKey postHello).length <
        (deriveKey hsh "POST" "/submit" (some "hello")).length) := by
  refine ⟨rfl, fun hsh => ?_⟩
  simp only [generateCacheKey, deriveKey, postHello, String.length_append]
  have h1 : "POST|/submit".length = 12 := rfl
  have h2 : "POST".length = 4 := rfl
  have h3 : "|".length = 1 := rfl
  have h4 : "/submit".length = 7 := rfl
  omega

/-- C5: `generateCacheKey` is body-insensitive: the two POST requests
`postA` and `postB` differ only in their bodies, yet the derived (and
used) keys coincide. -/
theorem generateCacheKey_body_insensitive :
    generateCacheKey postA = generateCacheKey postB ∧
    postA.bodyChunks ≠ postB.bodyChunks := by
  exact ⟨rfl, by decide⟩

/-- C2: against an origin that answers every hop with a redirect, the
code's redirect counter is reset to 0 at every hop, so the `> 5` guard
never fires: for every fuel the chase completes no response at all — in
particular the client never receives the 500 "Too many redirects" — while
the spec's fetcher with the counter threaded across hops aborts with the
500 after exactly 6 hops. -/
theorem redirect_limit_never_triggers :
    (∀ fuel, handleRequest selfRedirectOracle "http://o" reqLoop [] fuel = none) ∧
    fetchFromOriginSpec selfRedirectOracle "http://o" 10 "/loop" [] reqLoop 0 =
      some ⟨[], ⟨500, [("Content-Type", "text/plain")], none, "Too many redirects"⟩,
        6, 0, RequestPath.redirectLimit⟩ := by
  exact ⟨selfRedirect_handle_none, by decide⟩

/-- C4 counterexample: the two-hop scenario — `GET /a` answered with 302
`Location: /b`, and `/b` answered with 200 body `final` — stores the final
response under the original request's key `GET|/a`; the redirect target's
key `GET|/b` maps to nothing in the resulting cache, refuting that the
entry is stored under the redirect target's key derivation context. -/
theorem redirect_cache_key_counterexample :
    handleRequest redirectOracle "http://o" reqA [] 5 =
      some ⟨[("GET|/a", ⟨[("content-type", "text/html")], "final"⟩)],
        ⟨200, [("content-type", "text/html")], some "MISS", "final"⟩,
        2, 1, RequestPath.cacheWrite⟩ ∧
    generateCacheKey ⟨"GET", "/b", [], []⟩ = "GET|/b" ∧
    cacheGet [("GET|/a", ⟨[("content-type", "text/html")], "final"⟩)] "GET|/b" = none := by
  exact ⟨by decide, rfl, by decide⟩

/-- C4 amended: when the origin answers the requested path with a 302
carrying a Location and the redirect target answers with a 2xx response,
the client receives that final response with the MISS signal and no
signal from the intermediate hop, and the cache entry holding the final
response is stored under the key derived from the original client request
(`generateCacheKey req`), not under the redirect target's path. -/
theorem redirect_caches_under_original_key (oracle : OutboundRequest → OriginResult)
    (origin : String) (req : ClientRequest) (c : Cache) (loc path2 : String)
    (r2 : OriginResponse) (fuel : Nat)
    (hmiss : cacheGet c (generateCacheKey req) = none)
    (h1 : oracle (buildProxyRequest origin req.url req) =
      OriginResult.response ⟨302, [("location", loc)], ""⟩)
    (hloc : loc ≠ "")
    (hstrip : stripOrigin origin (resolveUrl origin loc) = path2)
    (h2 : oracle (buildProxyRequest origin path2 req) = OriginResult.response r2)
    (hlo : 200 ≤ r2.statusCode) (hhi : r2.statusCode < 300) :
    handleRequest oracle origin req c (fuel + 2) =
      some ⟨cacheSet c (generateCacheKey req) ⟨r2.headers, r2.body⟩,
        ⟨r2.statusCode, r2.headers, some "MISS", r2.body⟩,
        2, 1, RequestPath.cacheWrite⟩ := by
  simp only [handleRequest, hmiss]
  simp only [fetchFromOrigin, h1]
  simp only [getHeader, List.lookup, beq_self_eq_true, if_true, Option.getD_some]
  rw [if_pos ⟨by omega, by omega, hloc⟩, if_neg (by omega), hstrip]
  simp only [fetchFromOrigin, h2]
  rw [if_neg (by rintro ⟨h3, _, _⟩; omega), if_pos ⟨hlo, hhi⟩]

/-- C4 witness: the amended theorem instantiated on the concrete two-hop
scenario against `redirectOracle`. -/
theorem redirect_caches_under_original_key_witness :
    (cacheGet [] (generateCacheKey reqA) = none ∧
      redirectOracle (buildProxyRequest "http://o" reqA.url reqA) =
        OriginResult.response ⟨302, [("location", "/b")], ""⟩ ∧
      stripOrigin "http://o" (resolveUrl "http://o" "/b") = "/b" ∧
      redirectOracle (buildProxyRequest "http://o" "/b" reqA) =
        OriginResult.response ⟨200, [("content-type", "text/html")], "final"⟩) ∧
    handleRequest redirectOracle "http://o" reqA [] (3 + 2) =
      some ⟨cacheSet [] (generateCacheKey reqA) ⟨[("content-type", "text/html")], "final"⟩,
        ⟨200, [("content-type", "text/html")], some "MISS", "final"⟩,
        2, 1, RequestPath.cacheWrite⟩ :=
  ⟨⟨by decide, by decide, by decide, by decide⟩,
    redirect_caches_under_original_key redirectOracle "http://o" reqA [] "/b" "/b"
      ⟨200, [("content-type", "text/html")], "final"⟩ 3
      (by decide) (by decide) (by decide) (by decide) (by decide) (by decide) (by decide)⟩

/-- C3: on a cache with no entry for the request's key, a request whose
origin answers with a terminal 2xx response contacts the origin (one hop),
stores the response and carries the MISS signal; an immediately following
identical request (against the updated cache) is answered from the cache
with status 200, the cached headers, the HIT signal, a body byte-identical
to the first response's, and zero origin contacts. -/
theorem first_miss_then_hit (oracle : OutboundRequest → OriginResult) (origin : String)
    (req : ClientRequest) (c : Cache) (r : OriginResponse) (fuel fuel2 : Nat)
    (hmiss : cacheGet c (generateCacheKey req) = none)
    (hresp : oracle (buildProxyRequest origin req.url req) = OriginResult.response r)
    (hlo : 200 ≤ r.statusCode) (hhi : r.statusCode < 300) :
    handleRequest oracle origin req c (fuel + 1) =
      some ⟨cacheSet c (generateCacheKey req) ⟨r.headers, r.body⟩,
        ⟨r.statusCode, r.headers, some "MISS", r.body⟩, 1, 1, RequestPath.cacheWrite⟩ ∧
    handleRequest oracle origin req (cacheSet c (generateCacheKey req) ⟨r.headers, r.body⟩) fuel2 =
      some ⟨cacheSet c (generateCacheKey req) ⟨r.headers, r.body⟩,
        ⟨200, r.headers, some "HIT", r.body⟩, 0, 0, RequestPath.hit⟩ := by
  constructor
  · simp only [handleRequest, hmiss]
    simp only [fetchFromOrigin, hresp]
    rw [if_neg (by rintro ⟨h3, _, _⟩; omega), if_pos ⟨hlo, hhi⟩]
  · simp only [handleRequest, cacheGet, cacheSet, List.lookup, beq_self_eq_true, if_true]

/-- C3 witness: the concrete scenario of §8 — `GET /a` against an origin
answering 200 with body `x`, starting from the empty cache. -/
theorem first_miss_then_hit_witness :
    (cacheGet [] (generateCacheKey reqA) = none ∧
      okOracle (buildProxyRequest "http://o" reqA.url reqA) =
        OriginResult.response ⟨200, [("content-type", "text/plain")], "x"⟩ ∧
      200 ≤ 200 ∧ 200 < 300) ∧
    (handleRequest okOracle "http://o" reqA [] (4 + 1) =
      some ⟨cacheSet [] (generateCacheKey reqA) ⟨[("content-type", "text/plain")], "x"⟩,
        ⟨200, [("content-type", "text/plain")], some "MISS", "x"⟩, 1, 1, RequestPath.cacheWrite⟩ ∧
    handleRequest okOracle "http://o" reqA
        (cacheSet [] (generateCacheKey reqA) ⟨[("content-type", "text/plain")], "x"⟩) 7 =
      some ⟨cacheSet [] (generateCacheKey reqA) ⟨[("content-type", "text/plain")], "x"⟩,
        ⟨200, [("content-type", "text/plain")], some "HIT", "x"⟩, 0, 0, RequestPath.hit⟩) :=
  ⟨⟨by decide, by decide, by decide, by decide⟩,
    first_miss_then_hit okOracle "http://o" reqA []
      ⟨200, [("content-type", "text/plain")], "x"⟩ 4 7
      (by decide) (by decide) (by decide) (by decide)⟩

/-- C6: when the origin answers with a terminal response whose status lies
outside [200,300), nothing is stored (`stores = 0`, cache unchanged) and
the response is written through with its original status, headers and body
and no cache-status signal; a later identical request against the same
cache again misses and fetches (one hop, pass-through), never hits. -/
theorem non_cacheable_pass_through (oracle : OutboundRequest → OriginResult) (origin : String)
    (req : ClientRequest) (c : Cache) (r : OriginResponse) (fuel fuel2 : Nat)
    (hmiss : cacheGet c (generateCacheKey req) = none)
    (hresp : oracle (buildProxyRequest origin req.url req) = OriginResult.response r)
    (hout : r.statusCode < 200 ∨ 300 ≤ r.statusCode)
    (hterm : ¬(300 ≤ r.statusCode ∧ r.statusCode < 400 ∧
      (getHeader r.headers "location").getD "" ≠ "")) :
    handleRequest oracle origin req c (fuel + 1) =
      some ⟨c, ⟨r.statusCode, r.headers, none, r.body⟩, 1, 0, RequestPath.passThrough⟩ ∧
    handleRequest oracle origin req c (fuel2 + 1) =
      some ⟨c, ⟨r.statusCode, r.headers, none, r.body⟩, 1, 0, RequestPath.passThrough⟩ := by
  have main : ∀ f : Nat, handleRequest oracle origin req c (f + 1) =
      some ⟨c, ⟨r.statusCode, r.headers, none, r.body⟩, 1, 0, RequestPath.passThrough⟩ := by
    intro f
    simp only [handleRequest, hmiss]
    simp only [fetchFromOrigin, hresp]
    rw [if_neg hterm, if_neg (by rintro ⟨h2, h3⟩; omega)]
  exact ⟨main fuel, main fuel2⟩

/-- C6 witness: `GET /a` against an origin answering 404, starting from
the empty cache. -/
theorem non_cacheable_pass_through_witness :
    (cacheGet [] (generateCacheKey reqA) = none ∧
      notFoundOracle (buildProxyRequest "http://o" reqA.url reqA) =
        OriginResult.response ⟨404, [("content-type", "text/plain")], "nope"⟩ ∧
      (404 < 200 ∨ 300 ≤ 404)) ∧
    (handleRequest notFoundOracle "http://o" reqA [] (4 + 1) =
      some ⟨[], ⟨404, [("content-type", "text/plain")], none, "nope"⟩,
        1, 0, RequestPath.passThrough⟩ ∧
    handleRequest notFoundOracle "http://o" reqA [] (6 + 1) =
      some ⟨[], ⟨404, [("content-type", "text/plain")], none, "nope"⟩,
        1, 0, RequestPath.passThrough⟩) :=
  ⟨⟨by decide, by decide, by decide⟩,
    non_cacheable_pass_through notFoundOracle "http://o" reqA []
      ⟨404, [("content-type", "text/plain")], "nope"⟩ 4 6
      (by decide) (by decide) (by decide) (by decide)⟩

/-- C7: when the connection to the origin fails with message `msg`, the
client receives 500 with `Content-Type: text/plain` and body
`Error fetching from origin: <msg>`; exactly one connection attempt is
made (no retry) and the cache is left unchanged. -/
theorem transport_error_500 (oracle : OutboundRequest → OriginResult) (origin : String)
    (req : ClientRequest) (c : Cache) (msg : String) (fuel : Nat)
    (hmiss : cacheGet c (generateCacheKey req) = none)
    (herr : oracle (buildProxyRequest origin req.url req) = OriginResult.error msg) :
    handleRequest oracle origin req c (fuel + 1) =
      some ⟨c, ⟨500, [("Content-Type", "text/plain")], none,
        "Error fetching from origin: " ++ msg⟩, 1, 0, RequestPath.transportError⟩ := by
  simp only [handleRequest, hmiss]
  simp only [fetchFromOrigin, herr]

/-- C7 witness: `GET /a` against an unreachable origin. -/
theorem transport_error_500_witness :
    (cacheGet [] (generateCacheKey reqA) = none ∧
      downOracle (buildProxyRequest "http://o" reqA.url reqA) =
        OriginResult.error "connect ECONNREFUSED 127.0.0.1:9999") ∧
    handleRequest downOracle "http://o" reqA [] (4 + 1) =
      some ⟨[], ⟨500, [("Content-Type", "text/plain")], none,
        "Error fetching from origin: " ++ "connect ECONNREFUSED 127.0.0.1:9999"⟩,
        1, 0, RequestPath.transportError⟩ :=
  ⟨⟨by decide, by decide⟩,
    transport_error_500 downOracle "http://o" reqA [] "connect ECONNREFUSED 127.0.0.1:9999" 4
      (by decide) (by decide)⟩

/-- C8 counterexample: against the perpetually redirecting origin no
outcome path ever executes — processing of `GET /loop` never completes,
whatever the fuel — so it is not the case that every client request
executes exactly one of the four outcome paths. -/
theorem outcome_paths_counterexample :
    ¬ chaseTerminates selfRedirectOracle "http://o" reqLoop [] := by
  rintro ⟨fuel, o, h⟩
  rw [selfRedirect_handle_none fuel] at h
  cases h

/-- C8 amended: every client request whose processing completes executes
exactly one outcome path (the single branch tag of the outcome) with the
CacheStore mutated at most once; the hit path performs a pure lookup,
leaving the cache unchanged with no store and no origin contact. -/
theorem terminating_request_single_path (oracle : OutboundRequest → OriginResult)
    (origin : String) (req : ClientRequest) (c : Cache) (fuel : Nat) (o : Outcome)
    (h : handleRequest oracle origin req c fuel = some o) :
    o.stores ≤ 1 ∧
    (o.tag = RequestPath.hit → o.cache = c ∧ o.stores = 0 ∧ o.hops = 0) := by
  simp only [handleRequest] at h
  split at h
  · cases h
    exact ⟨by simp, fun _ => ⟨rfl, rfl, rfl⟩⟩
  · have h2 := fetch_stores_le_one oracle origin fuel req.url c req o h
    exact ⟨h2.1, fun htag => absurd htag h2.2⟩

/-- C8 witness: the amended theorem instantiated on the completed
`GET /a` request against `okOracle`. -/
theorem terminating_request_single_path_witness :
    handleRequest okOracle "http://o" reqA [] 5 = some outA ∧
    (outA.stores ≤ 1 ∧
      (outA.tag = RequestPath.hit → outA.cache = [] ∧ outA.stores = 0 ∧ outA.hops = 0)) :=
  ⟨by decide,
    terminating_request_single_path okOracle "http://o" reqA [] 5 outA (by decide)⟩

/-- C9: the outbound request is built from the client request's method,
the target URL and the client body stream only: two client requests that
agree on method, url and body but carry different headers produce the same
origin-bound request, and the whole request processing has the same
observable outcome for both. -/
theorem origin_request_ignores_client_headers (oracle : OutboundRequest → OriginResult)
    (origin path : String) (c : Cache) (fuel : Nat) (r1 r2 : ClientRequest)
    (hm : r1.method = r2.method) (hu : r1.url = r2.url)
    (hb : r1.bodyChunks = r2.bodyChunks) :
    buildProxyRequest origin path r1 = buildProxyRequest origin path r2 ∧
    handleRequest oracle origin r1 c fuel = handleRequest oracle origin r2 c fuel := by
  obtain ⟨m1, u1, b1, hs1⟩ := r1
  obtain ⟨m2, u2, b2, hs2⟩ := r2
  simp only at hm hu hb
  subst hm; subst hu; subst hb
  refine ⟨rfl, ?_⟩
  simp only [handleRequest, generateCacheKey]
  cases cacheGet c (m1 ++ "|" ++ u1) with
  | some e => rfl
  | none => exact fetch_ignores_client_headers oracle origin fuel u1 c m1 u1 b1 hs1 hs2

/-- C9 witness: the same `GET /a` with and without an
`authorization`-style client header yields the same outbound request and
the same outcome. -/
theorem origin_request_ignores_client_headers_witness :
    buildProxyRequest "http://o" "/a" ⟨"GET", "/a", [], [("x-secret", "s")]⟩ =
      buildProxyRequest "http://o" "/a" reqA ∧
    handleRequest okOracle "http://o" ⟨"GET", "/a", [], [("x-secret", "s")]⟩ [] 5 =
      handleRequest okOracle "http://o" reqA [] 5 :=
  origin_request_ignores_client_headers okOracle "http://o" "/a" [] 5
    ⟨"GET", "/a", [], [("x-secret", "s")]⟩ reqA rfl rfl rfl

/-- C10: an origin response with a 3xx status but no Location header is
terminal: it is not chased (one hop only), not stored (cache unchanged,
no store), and written through with its original status, headers and body
and no cache-status signal. -/
theorem redirect_without_location_terminal (oracle : OutboundRequest → OriginResult)
    (origin : String) (req : ClientRequest) (c : Cache) (r : OriginResponse) (fuel : Nat)
    (hmiss : cacheGet c (generateCacheKey req) = none)
    (hresp : oracle (buildProxyRequest origin req.url req) = OriginResult.response r)
    (h3l : 300 ≤ r.statusCode) (h3h : r.statusCode < 400)
    (hnoloc : getHeader r.headers "location" = none) :
    handleRequest oracle origin req c (fuel + 1) =
      some ⟨c, ⟨r.statusCode, r.headers, none, r.body⟩, 1, 0, RequestPath.passThrough⟩ := by
  simp only [handleRequest, hmiss]
  simp only [fetchFromOrigin, hresp, hnoloc]
  rw [if_neg (by rintro ⟨_, _, hne⟩; simp [hnoloc] at hne),
    if_neg (by rintro ⟨h2, h3⟩; omega)]

/-- C10 witness: `GET /a` against an origin answering 302 without a
Location header. -/
theorem redirect_without_location_terminal_witness :
    (cacheGet [] (generateCacheKey reqA) = none ∧
      bareRedirectOracle (buildProxyRequest "http://o" reqA.url reqA) =
        OriginResult.response ⟨302, [("content-type", "text/plain")], "moved"⟩ ∧
      300 ≤ 302 ∧ 302 < 400 ∧
      getHeader [("content-type", "text/plain")] "location" = none) ∧
    handleRequest bareRedirectOracle "http://o" reqA [] (4 + 1) =
      some ⟨[], ⟨302, [("content-type", "text/plain")], none, "moved"⟩,
        1, 0, RequestPath.passThrough⟩ :=
  ⟨⟨by decide, by decide, by decide, by decide, by decide⟩,
    redirect_without_location_terminal bareRedirectOracle "http://o" reqA []
      ⟨302, [("content-type", "text/plain")], "moved"⟩ 4
      (by decide) (by decide) (by decide) (by decide) (by decide)⟩

end Proxy
